import Mathlib

/-!
Shallow embedding of the authentication/token-lifecycle subsystem of the
`viessmann-api` TypeScript client:

* `src/oauth.ts` — PKCE generation (`generatePKCE`) and the local OAuth
  callback server's request handler (`startCallbackServer`);
* `storage.ts` (shipped appended to `explore.ts`) — `TokenStorage`
  (`saveToken`, `loadToken`, `isTokenExpired`) including its filesystem
  operations;
* `src/client.ts` — `ViessmannClient` (constructor, `authenticateWithBrowser`,
  `authenticate`, `refreshToken`, `isTokenExpired`, `ensureAuthenticated`,
  `updateAuthHeader`).

Conventions of the embedding:

* JavaScript timestamps (`Date.now()`, millisecond arithmetic) are `Int`.
* A TypeScript value of type `string | undefined` (or `string | null`) is
  `Option String`; JavaScript truthiness of such a value (`if (x)`) is the
  `truthy` predicate below: present and non-empty.
* Asynchronous effects (HTTP requests to the token endpoint, filesystem
  writes, opening the browser, starting the callback server) are made
  explicit: functions return the list of effects they perform alongside
  their result, and the outcome of each external call is a parameter.
* Thrown exceptions are `Except` errors.
-/

/-- JavaScript truthiness of a `string | undefined` value: present and
non-empty. -/
def truthy : Option String → Bool
  | some s => s ≠ ""
  | none => false

/-! ## Data model (`src/types.ts`, `storage.ts`) -/

/-- `AuthToken` from `src/types.ts`: the token-endpoint response shape. -/
structure AuthToken where
  access_token : String
  refresh_token : String
  expires_in : Int
  token_type : String
deriving DecidableEq, Repr

/-- `StoredToken` from `storage.ts`: an `AuthToken` plus the `created_at`
timestamp stamped when the record was written to disk. -/
structure StoredToken extends AuthToken where
  created_at : Int
deriving DecidableEq, Repr

/-! ## Token Store (`storage.ts`, class `TokenStorage`) -/

/-- Filesystem operations performed by `TokenStorage`, recorded as a trace.
`writeFile` carries the record serialized into the file (JSON serialization
of this flat record is faithful, so the trace carries the record itself). -/
inductive FsOp where
  | writeFile (path : String) (record : StoredToken)
  | rename (src : String) (dst : String)
  | readFile (path : String)
  | unlink (path : String)
deriving DecidableEq, Repr

/-- Default token path of `TokenStorage`: `.viessmann-token.json` in the
working directory. -/
def defaultTokenPath : String := ".viessmann-token.json"

/-- `TokenStorage.saveToken`, from `storage.ts`:

```ts
const storedToken: StoredToken = { ...token, created_at: Date.now() };
await fs.promises.writeFile(this.tokenPath, JSON.stringify(storedToken, null, 2), 'utf-8');
```

The record handed in at runtime may already carry a `created_at` field (the
spread `...token` copies it), but the explicit `created_at: Date.now()`
property that follows always overrides it; `existingCreatedAt` models the
`created_at` the caller's object may carry, and is discarded.  The result is
the filesystem trace paired with the record written. -/
def saveToken (tokenPath : String) (now : Int) (token : AuthToken)
    (existingCreatedAt : Option Int) : List FsOp × StoredToken :=
  let storedToken : StoredToken := { toAuthToken := token, created_at := now }
  ([FsOp.writeFile tokenPath storedToken], storedToken)

/-- `TokenStorage.loadToken`: reads and parses the token file; any read or
parse error yields `null`.  The store contents are modelled as
`Option StoredToken` (`none` = missing or corrupt file). -/
def loadToken (store : Option StoredToken) : Option StoredToken := store

/-- `TokenStorage.isTokenExpired`, from `storage.ts`:

```ts
const expiresAt = token.created_at + (token.expires_in * 1000);
return Date.now() >= (expiresAt - 5 * 60 * 1000);
```
-/
def isTokenExpired (now : Int) (token : StoredToken) : Bool :=
  let expiresAt := token.created_at + token.expires_in * 1000
  decide (now ≥ expiresAt - 5 * 60 * 1000)

/-- An `FsOp` that is a rename. -/
def isRenameOp : FsOp → Bool
  | FsOp.rename _ _ => true
  | _ => false

/-- An `FsOp` that writes directly to the given (final) path. -/
def writesDirectlyTo (path : String) : FsOp → Bool
  | FsOp.writeFile p _ => p = path
  | _ => false

/-! ## Callback Listener (`src/oauth.ts`, `startCallbackServer`) -/

/-- The query parameters of a request received by the callback server
(each is `string | null` from `url.searchParams.get`). -/
structure CallbackQuery where
  code : Option String
  state : Option String
  error : Option String
deriving DecidableEq, Repr

/-- How the callback server settles its pending promise on a request to `/`. -/
inductive CallbackOutcome where
  /-- `resolve(code)` — the authorization code is accepted. -/
  | resolveCode (code : String)
  /-- `reject(new Error('OAuth error: ...'))` — provider-reported error. -/
  | rejectOAuthError (error : String)
  /-- `reject(new Error('State mismatch'))` — CSRF state-mismatch failure. -/
  | rejectStateMismatch
  /-- `reject(new Error('No code received'))`. -/
  | rejectNoCode
deriving DecidableEq, Repr

/-- The request handler installed by `startCallbackServer(port, expectedState)`
for a request to `/`, from `src/oauth.ts` lines 77–146:

```ts
const code = url.searchParams.get('code');
const state = url.searchParams.get('state');
const error = url.searchParams.get('error');
if (error) { ... reject(new Error(`OAuth error: ...`)); return; }
if (expectedState && state !== expectedState) { ... reject(new Error('State mismatch')); return; }
if (code) { ... resolve(code); } else { ... reject(new Error('No code received')); }
```

`expectedState && ...` is JavaScript truthiness (`expectedState` present and
non-empty); `state !== expectedState` compares the nullable `state` with the
expected string, so a missing `state` also mismatches. -/
def startCallbackServerHandler (expectedState : Option String)
    (q : CallbackQuery) : CallbackOutcome :=
  if truthy q.error then
    CallbackOutcome.rejectOAuthError (q.error.getD "")
  else if truthy expectedState && q.state ≠ expectedState then
    CallbackOutcome.rejectStateMismatch
  else if truthy q.code then
    CallbackOutcome.resolveCode (q.code.getD "")
  else
    CallbackOutcome.rejectNoCode

/-! ## PKCE generator (`src/oauth.ts`, `generatePKCE`)

`crypto.randomBytes(32).toString('base64url')` and
`createHash('sha256').update(verifier).digest('base64url')` are modelled by a
base64url encoder (Node's `base64url` produces no padding) over byte lists
and a full SHA-256 implementation over byte lists. -/

/-- The base64url alphabet (RFC 4648 §5): `A–Z`, `a–z`, `0–9`, `-`, `_`. -/
def b64urlAlphabet : List Char :=
  "ABCDEFGHIJKLMNOPQRSTUVWXYZabcdefghijklmnopqrstuvwxyz0123456789-_".toList

/-- The base64url character for a 6-bit value. -/
def b64Char (n : Nat) : Char := b64urlAlphabet.getD n 'A'

/-- Base64url encoding of a byte list, without padding (Node's
`Buffer.toString('base64url')`). -/
def base64urlEncode : List Nat → List Char
  | b1 :: b2 :: b3 :: rest =>
      b64Char (b1 / 4) :: b64Char (b1 % 4 * 16 + b2 / 16) ::
      b64Char (b2 % 16 * 4 + b3 / 64) :: b64Char (b3 % 64) ::
      base64urlEncode rest
  | [b1, b2] => [b64Char (b1 / 4), b64Char (b1 % 4 * 16 + b2 / 16), b64Char (b2 % 16 * 4)]
  | [b1] => [b64Char (b1 / 4), b64Char (b1 % 4 * 16)]
  | [] => []

/-- Truncation to a 32-bit word. -/
def mod32 (x : Nat) : Nat := x % 4294967296

/-- 32-bit right rotation (input assumed `< 2^32`). -/
def rotr32 (n x : Nat) : Nat := mod32 (x / 2 ^ n + x * 2 ^ (32 - n))

/-- 32-bit bitwise complement (input assumed `< 2^32`). -/
def compl32 (x : Nat) : Nat := 4294967295 - x

/-- Big-endian byte decomposition, `n` bytes. -/
def toBytesBE : Nat → Nat → List Nat
  | 0, _ => []
  | k + 1, x => toBytesBE k (x / 256) ++ [x % 256]

/-- SHA-256 round constants (FIPS 180-4 §4.2.2), as decimal `Nat` literals. -/
def sha256K : List Nat :=
  [1116352408, 1899447441, 3049323471, 3921009573, 961987163,
   1508970993, 2453635748, 2870763221, 3624381080, 310598401,
   607225278, 1426881987, 1925078388, 2162078206, 2614888103,
   3248222580, 3835390401, 4022224774, 264347078, 604807628,
   770255983, 1249150122, 1555081692, 1996064986, 2554220882,
   2821834349, 2952996808, 3210313671, 3336571891, 3584528711,
   113926993, 338241895, 666307205, 773529912, 1294757372,
   1396182291, 1695183700, 1986661051, 2177026350, 2456956037,
   2730485921, 2820302411, 3259730800, 3345764771, 3516065817,
   3600352804, 4094571909, 275423344, 430227734, 506948616,
   659060556, 883997877, 958139571, 1322822218, 1537002063,
   1747873779, 1955562222, 2024104815, 2227730452, 2361852424,
   2428436474, 2756734187, 3204031479, 3329325298]

/-- SHA-256 initial hash value (FIPS 180-4 §5.3.3), as decimal `Nat`
literals. -/
def sha256H0 : List Nat :=
  [1779033703, 3144134277, 1013904242, 2773480762,
   1359893119, 2600822924, 528734635, 1541459225]

/-- SHA-256 message padding: append `0x80`, zeros, and the 64-bit big-endian
bit length, to a multiple of 64 bytes. -/
def sha256pad (msg : List Nat) : List Nat :=
  let padZeros := (55 + 64 - msg.length % 64) % 64
  msg ++ 0x80 :: List.replicate padZeros 0 ++ toBytesBE 8 (msg.length * 8)

/-- Group bytes into big-endian 32-bit words. -/
def bytesToWords : List Nat → List Nat
  | a :: b :: c :: d :: rest =>
      (a * 16777216 + b * 65536 + c * 256 + d) :: bytesToWords rest
  | _ => []

/-- Split a list into 64-byte blocks (input length assumed a multiple of 64);
structural recursion on a fuel bounded by the list length. -/
def chunk64Go : Nat → List Nat → List (List Nat)
  | 0, _ => []
  | _, [] => []
  | fuel + 1, l => l.take 64 :: chunk64Go fuel (l.drop 64)

/-- Split a list into 64-byte blocks (input length assumed a multiple of 64). -/
def chunk64 (l : List Nat) : List (List Nat) := chunk64Go l.length l

/-- One step of the SHA-256 message-schedule extension: append the next word. -/
def sha256ExtendStep (w : Array Nat) : Array Nat :=
  let i := w.size
  let w15 := w.getD (i - 15) 0
  let w2 := w.getD (i - 2) 0
  let s0 := rotr32 7 w15 ^^^ rotr32 18 w15 ^^^ w15 / 2 ^ 3
  let s1 := rotr32 17 w2 ^^^ rotr32 19 w2 ^^^ w2 / 2 ^ 10
  w.push (mod32 (w.getD (i - 16) 0 + s0 + w.getD (i - 7) 0 + s1))

/-- Iterate the schedule extension `n` times. -/
def sha256Extend : Nat → Array Nat → Array Nat
  | 0, w => w
  | n + 1, w => sha256Extend n (sha256ExtendStep w)

/-- The 64-entry message schedule of a block. -/
def sha256Schedule (block : List Nat) : List Nat :=
  (sha256Extend 48 (List.toArray (bytesToWords block))).toList

/-- The SHA-256 working state, `(a, b, c, d, e, f, g, h)`. -/
structure Sha256State where
  a : Nat
  b : Nat
  c : Nat
  d : Nat
  e : Nat
  f : Nat
  g : Nat
  h : Nat
deriving DecidableEq, Repr

/-- One SHA-256 compression round for round constant `k` and schedule word
`w`. -/
def sha256Round (st : Sha256State) (kw : Nat × Nat) : Sha256State :=
  let s1 := rotr32 6 st.e ^^^ rotr32 11 st.e ^^^ rotr32 25 st.e
  let ch := st.e &&& st.f ^^^ compl32 st.e &&& st.g
  let temp1 := mod32 (st.h + s1 + ch + kw.1 + kw.2)
  let s0 := rotr32 2 st.a ^^^ rotr32 13 st.a ^^^ rotr32 22 st.a
  let maj := st.a &&& st.b ^^^ st.a &&& st.c ^^^ st.b &&& st.c
  let temp2 := mod32 (s0 + maj)
  { a := mod32 (temp1 + temp2), b := st.a, c := st.b, d := st.c,
    e := mod32 (st.d + temp1), f := st.e, g := st.f, h := st.g }

/-- Compress one 64-byte block into the running hash value. -/
def sha256Block (hv : List Nat) (block : List Nat) : List Nat :=
  let ws := sha256Schedule block
  let init : Sha256State :=
    { a := hv.getD 0 0, b := hv.getD 1 0, c := hv.getD 2 0, d := hv.getD 3 0,
      e := hv.getD 4 0, f := hv.getD 5 0, g := hv.getD 6 0, h := hv.getD 7 0 }
  let st := (sha256K.zip ws).foldl sha256Round init
  [mod32 (hv.getD 0 0 + st.a), mod32 (hv.getD 1 0 + st.b),
   mod32 (hv.getD 2 0 + st.c), mod32 (hv.getD 3 0 + st.d),
   mod32 (hv.getD 4 0 + st.e), mod32 (hv.getD 5 0 + st.f),
   mod32 (hv.getD 6 0 + st.g), mod32 (hv.getD 7 0 + st.h)]

/-- SHA-256 of a byte list, as a 32-byte digest. -/
def sha256 (msg : List Nat) : List Nat :=
  ((chunk64 (sha256pad msg)).foldl sha256Block sha256H0).flatMap (toBytesBE 4)

/-- `PKCEChallenge` from `src/oauth.ts` (the verifier and challenge strings,
as character lists). -/
structure PKCEChallenge where
  codeVerifier : List Char
  codeChallenge : List Char
deriving DecidableEq, Repr

/-- `generatePKCE` from `src/oauth.ts` lines 27–38, as a function of the 32
random bytes drawn from `crypto.randomBytes(32)`:

```ts
const codeVerifier = crypto.randomBytes(32).toString('base64url');
const codeChallenge = crypto.createHash('sha256').update(codeVerifier).digest('base64url');
```

`update(codeVerifier)` hashes the UTF-8 bytes of the verifier; the verifier
is ASCII so its bytes are the character code points. -/
def generatePKCE (randomBytes : List Nat) : PKCEChallenge :=
  let codeVerifier := base64urlEncode randomBytes
  let codeChallenge := base64urlEncode (sha256 (codeVerifier.map Char.toNat))
  { codeVerifier := codeVerifier, codeChallenge := codeChallenge }

/-! ## Client (`src/client.ts`, class `ViessmannClient`) -/

/-- `ViessmannConfig` as consumed by `ViessmannClient` (`src/client.ts` uses
`clientSecret`, `username`, `password`, `accessToken`, `refreshToken` and
`apiUrl` as optional fields). -/
structure ViessmannConfig where
  clientId : String
  clientSecret : Option String
  username : Option String
  password : Option String
  accessToken : Option String
  refreshToken : Option String
  apiUrl : Option String
deriving DecidableEq, Repr

/-- The mutable per-instance state of `ViessmannClient`: `this.token`,
`this.tokenExpiry` (a `Date`, as milliseconds) and the default
`Authorization` header of `this.axiosInstance`. -/
structure ClientState where
  token : Option AuthToken
  tokenExpiry : Option Int
  authHeader : Option String
deriving DecidableEq, Repr

/-- Externally visible effects of a client operation, in order. -/
inductive Effect where
  /-- A POST to the identity provider's token endpoint with this
  form-encoded body. -/
  | tokenRequest (body : List (String × String))
  /-- `TokenStorage.deleteToken()`. -/
  | deleteStoredToken
  /-- `TokenStorage.saveToken(token)`. -/
  | saveStoredToken (token : AuthToken)
  /-- `openBrowser(authUrl)`. -/
  | openBrowser
  /-- `startCallbackServer(port, state)`. -/
  | startCallbackServer (port : Nat)
deriving DecidableEq, Repr

/-- Errors thrown by the client's authentication methods. -/
inductive ClientError where
  /-- `'No refresh token available'`. -/
  | noRefreshToken
  /-- `'Client secret is required for token refresh'`. -/
  | missingClientSecret
  /-- `'Token refresh failed: ...'`. -/
  | tokenRefreshFailed
  /-- `'Username, password, and client secret are required for authentication'`. -/
  | missingCredentials
  /-- `'Authentication failed: ...'` (password grant). -/
  | authenticationFailed
  /-- `'Token exchange failed: ...'` (authorization-code grant). -/
  | tokenExchangeFailed
  /-- A rejection propagated from the callback server
  (OAuth error, state mismatch, no code, or timeout). -/
  | callbackRejected
deriving DecidableEq, Repr

/-- `ViessmannClient.updateAuthHeader`: sets the axios default
`Authorization` header to `Bearer <access_token>` when a token is held. -/
def updateAuthHeader (cs : ClientState) : ClientState :=
  match cs.token with
  | some t => { cs with authHeader := some ("Bearer " ++ t.access_token) }
  | none => cs

/-- The `ViessmannClient` constructor (`src/client.ts` lines 15–42), reduced
to its effect on the client state.  When `config.accessToken` is truthy the
token is adopted directly with nominal `expires_in = 3600`, the expiry is set
365 days into the future, and the auth header is updated; otherwise the state
starts empty. -/
def constructorState (now : Int) (config : ViessmannConfig) : ClientState :=
  if truthy config.accessToken then
    updateAuthHeader
      { token := some
          { access_token := config.accessToken.getD ""
            refresh_token := config.refreshToken.getD ""
            expires_in := 3600
            token_type := "Bearer" }
        tokenExpiry := some (now + 365 * 24 * 60 * 60 * 1000)
        authHeader := none }
  else
    { token := none, tokenExpiry := none, authHeader := none }

/-- `ViessmannClient.isTokenExpired` (the in-memory check, `src/client.ts`
lines 228–231):

```ts
if (!this.tokenExpiry) return true;
return Date.now() >= this.tokenExpiry.getTime() - 5 * 60 * 1000;
```
-/
def clientIsTokenExpired (now : Int) (cs : ClientState) : Bool :=
  match cs.tokenExpiry with
  | none => true
  | some expiry => decide (now ≥ expiry - 5 * 60 * 1000)

/-- `ViessmannClient.refreshToken` (`src/client.ts` lines 186–223).  The
outcome of the HTTP POST is the parameter `http` (`Except.error` = any axios
failure).  Returns the effect trace and either the new client state or the
thrown error:

```ts
if (!this.token?.refresh_token) throw new Error('No refresh token available');
if (!this.config.clientSecret) throw new Error('Client secret is required for token refresh');
const params = { grant_type: 'refresh_token', refresh_token: ..., client_id: ..., client_secret: ... };
// POST; on success adopt response, set expiry now + expires_in*1000,
// update header, save token; any failure → 'Token refresh failed'.
```
-/
def refreshToken (now : Int) (config : ViessmannConfig) (cs : ClientState)
    (http : Except Unit AuthToken) : List Effect × Except ClientError ClientState :=
  match cs.token with
  | none => ([], Except.error ClientError.noRefreshToken)
  | some t =>
    if t.refresh_token = "" then
      ([], Except.error ClientError.noRefreshToken)
    else if truthy config.clientSecret then
      let body := [("grant_type", "refresh_token"),
                   ("refresh_token", t.refresh_token),
                   ("client_id", config.clientId),
                   ("client_secret", config.clientSecret.getD "")]
      match http with
      | Except.error _ =>
          ([Effect.tokenRequest body], Except.error ClientError.tokenRefreshFailed)
      | Except.ok resp =>
          ([Effect.tokenRequest body, Effect.saveStoredToken resp],
           Except.ok (updateAuthHeader
             { token := some resp
               tokenExpiry := some (now + resp.expires_in * 1000)
               authHeader := cs.authHeader }))
    else
      ([], Except.error ClientError.missingClientSecret)

/-- `ViessmannClient.authenticate` — the legacy password grant
(`src/client.ts` lines 148–181).  Requires username, password and client
secret; POSTs `grant_type=password` with a Basic authorization header; adopts
the response on success. -/
def authenticate (now : Int) (config : ViessmannConfig) (cs : ClientState)
    (http : Except Unit AuthToken) : List Effect × Except ClientError ClientState :=
  if truthy config.username && truthy config.password && truthy config.clientSecret then
    let body := [("grant_type", "password"),
                 ("username", config.username.getD ""),
                 ("password", config.password.getD ""),
                 ("client_id", config.clientId)]
    match http with
    | Except.error _ =>
        ([Effect.tokenRequest body], Except.error ClientError.authenticationFailed)
    | Except.ok resp =>
        ([Effect.tokenRequest body],
         Except.ok (updateAuthHeader
           { token := some resp
             tokenExpiry := some (now + resp.expires_in * 1000)
             authHeader := cs.authHeader }))
  else
    ([], Except.error ClientError.missingCredentials)

/-- `ViessmannClient.ensureAuthenticated` (`src/client.ts` lines 236–242):

```ts
if (!this.token) { await this.authenticate(); }
else if (this.isTokenExpired()) { await this.refreshToken(); }
```

There is no catch: a failure of `refreshToken` (or `authenticate`)
propagates to the caller unchanged. -/
def ensureAuthenticated (now : Int) (config : ViessmannConfig) (cs : ClientState)
    (http : Except Unit AuthToken) : List Effect × Except ClientError ClientState :=
  match cs.token with
  | none => authenticate now config cs http
  | some _ =>
    if clientIsTokenExpired now cs then
      refreshToken now config cs http
    else
      ([], Except.ok cs)

/-- The interactive part of `authenticateWithBrowser` (`src/client.ts`
lines 73–108): generate PKCE and state, build the authorization URL, start
the callback server on port 4200 concurrently with a best-effort browser
launch, await the code, exchange it (`exchangeCodeForToken`, lines 114–143)
and save the resulting token.  The callback outcome and the exchange HTTP
outcome are parameters; `verifier` is the PKCE code verifier sent as
`code_verifier`. -/
def interactiveFlow (now : Int) (config : ViessmannConfig) (cs : ClientState)
    (verifier : String) (callback : Except Unit String)
    (exchangeHttp : Except Unit AuthToken) :
    List Effect × Except ClientError ClientState :=
  let pre := [Effect.startCallbackServer 4200, Effect.openBrowser]
  match callback with
  | Except.error _ => (pre, Except.error ClientError.callbackRejected)
  | Except.ok code =>
    let body := [("grant_type", "authorization_code"),
                 ("code", code),
                 ("client_id", config.clientId),
                 ("redirect_uri", "http://localhost:4200/"),
                 ("code_verifier", verifier)]
    match exchangeHttp with
    | Except.error _ =>
        (pre ++ [Effect.tokenRequest body], Except.error ClientError.tokenExchangeFailed)
    | Except.ok resp =>
        let cs' := updateAuthHeader
          { token := some resp
            tokenExpiry := some (now + resp.expires_in * 1000)
            authHeader := cs.authHeader }
        (pre ++ [Effect.tokenRequest body, Effect.saveStoredToken resp], Except.ok cs')

/-- `ViessmannClient.authenticateWithBrowser` (`src/client.ts` lines 47–109):

1. Load the stored token (`stored` is `loadToken`'s result).  If present and
   not expired per `TokenStorage.isTokenExpired`, adopt it — set
   `this.token`, `this.tokenExpiry = created_at + expires_in*1000`, update
   the auth header — and return with no further effect.
2. Else, if the stored token carries a (truthy) refresh token, set
   `this.token = storedToken` and try `refreshToken()`; on success return;
   on any failure delete the stored token and fall through.
3. Run the full interactive flow. -/
def authenticateWithBrowser (now : Int) (config : ViessmannConfig)
    (cs : ClientState) (stored : Option StoredToken)
    (refreshHttp : Except Unit AuthToken) (verifier : String)
    (callback : Except Unit String) (exchangeHttp : Except Unit AuthToken) :
    List Effect × Except ClientError ClientState :=
  match stored with
  | some st =>
    if ¬ isTokenExpired now st then
      ([], Except.ok (updateAuthHeader
        { token := some st.toAuthToken
          tokenExpiry := some (st.created_at + st.expires_in * 1000)
          authHeader := cs.authHeader }))
    else if st.refresh_token ≠ "" then
      let cs1 := { cs with token := some st.toAuthToken }
      let refreshed := refreshToken now config cs1 refreshHttp
      match refreshed.2 with
      | Except.ok cs' => (refreshed.1, Except.ok cs')
      | Except.error _ =>
        let inter := interactiveFlow now config cs1 verifier callback exchangeHttp
        (refreshed.1 ++ [Effect.deleteStoredToken] ++ inter.1, inter.2)
    else
      interactiveFlow now config cs verifier callback exchangeHttp
  | none => interactiveFlow now config cs verifier callback exchangeHttp

/-! ## Supporting lemmas -/

theorem b64Char_mem (n : Nat) : b64Char n ∈ b64urlAlphabet := by
  unfold b64Char
  rw [List.getD_eq_getElem?_getD]
  cases h : b64urlAlphabet[n]? with
  | none => simp [h]; decide
  | some c =>
      simp only [h, Option.getD_some]
      exact List.getElem?_mem h

theorem base64urlEncode_length : (bs : List Nat) →
    (base64urlEncode bs).length = (4 * bs.length + 2) / 3
  | [] => by simp [base64urlEncode]
  | [b1] => by simp [base64urlEncode]
  | [b1, b2] => by simp [base64urlEncode]
  | b1 :: b2 :: b3 :: rest => by
      simp only [base64urlEncode, List.length_cons, base64urlEncode_length rest]
      omega

theorem mem_base64urlEncode : (bs : List Nat) → ∀ c ∈ base64urlEncode bs, c ∈ b64urlAlphabet
  | [] => by simp [base64urlEncode]
  | [b1] => by
      intro c hc
      simp only [base64urlEncode, List.mem_cons, List.not_mem_nil, or_false] at hc
      rcases hc with h | h <;> (subst h; exact b64Char_mem _)
  | [b1, b2] => by
      intro c hc
      simp only [base64urlEncode, List.mem_cons, List.not_mem_nil, or_false] at hc
      rcases hc with h | h | h <;> (subst h; exact b64Char_mem _)
  | b1 :: b2 :: b3 :: rest => by
      intro c hc
      simp only [base64urlEncode, List.mem_cons] at hc
      rcases hc with h | h | h | h | h
      · subst h; exact b64Char_mem _
      · subst h; exact b64Char_mem _
      · subst h; exact b64Char_mem _
      · subst h; exact b64Char_mem _
      · exact mem_base64urlEncode rest c h

/-- SHA-256 test vector: the digest of the ASCII string `abc`
(`ba7816bf 8f01cfea 414140de 5dae2223 b00361a3 96177a9c b410ff61 f20015ad`),
as decimal byte values. -/
example : sha256 [97, 98, 99] =
    [186, 120, 22, 191, 143, 1, 207, 234, 65, 65, 64, 222,
     93, 174, 34, 35, 176, 3, 97, 163, 150, 23, 122, 156,
     180, 16, 255, 97, 242, 0, 21, 173] := by decide

/-! ## Claims -/

/-- C1: a callback request that carries a code and a state different from the
expected state, and no error, is rejected with the CSRF state-mismatch failure;
the state check short-circuits before the code is resolved. -/
theorem C1_state_mismatch_short_circuits (expected received code : String)
    (hexp : expected ≠ "") (hne : received ≠ expected) :
    startCallbackServerHandler (some expected)
        { code := some code, state := some received, error := none }
      = CallbackOutcome.rejectStateMismatch ∧
    ∀ c, startCallbackServerHandler (some expected)
        { code := some code, state := some received, error := none }
      ≠ CallbackOutcome.resolveCode c := by
  have h : startCallbackServerHandler (some expected)
      { code := some code, state := some received, error := none }
    = CallbackOutcome.rejectStateMismatch := by
    simp [startCallbackServerHandler, truthy, hexp, hne]
  exact ⟨h, fun c => by simp [h]⟩

/-- C1 witness: code `abc`, expected state `s1`, received state `s2` yields the
state-mismatch rejection. -/
theorem C1_state_mismatch_witness :
    ("s1" : String) ≠ "" ∧ ("s2" : String) ≠ "s1" ∧
    startCallbackServerHandler (some "s1")
        { code := some "abc", state := some "s2", error := none }
      = CallbackOutcome.rejectStateMismatch :=
  ⟨by decide, by decide,
   (C1_state_mismatch_short_circuits "s1" "s2" "abc" (by decide) (by decide)).1⟩

/-- C10: when `startCallbackServer` is invoked without an expected state, state
validation is skipped entirely: every request with a (truthy) code and no error
resolves with that code regardless of any state parameter, and no state-mismatch
rejection can occur in that mode. -/
theorem C10_no_expected_state_skips_validation (code : String) (st : Option String)
    (hcode : code ≠ "") :
    startCallbackServerHandler none { code := some code, state := st, error := none }
      = CallbackOutcome.resolveCode code ∧
    ∀ q : CallbackQuery,
      startCallbackServerHandler none q ≠ CallbackOutcome.rejectStateMismatch := by
  constructor
  · simp [startCallbackServerHandler, truthy, hcode]
  · intro q
    simp only [startCallbackServerHandler]
    repeat' split
    all_goals simp_all [truthy]

/-- C10 witness: with no expected state, code `abc` resolves even alongside an
arbitrary state parameter. -/
theorem C10_no_expected_state_witness :
    ("abc" : String) ≠ "" ∧
    startCallbackServerHandler none
        { code := some "abc", state := some "anything", error := none }
      = CallbackOutcome.resolveCode "abc" :=
  ⟨by decide,
   (C10_no_expected_state_skips_validation "abc" (some "anything") (by decide)).1⟩

/-- C2: `TokenStorage.isTokenExpired` returns true iff
`now >= created_at + expires_in*1000 - 300000`; at the boundary where exactly
300000 ms remain it returns true. -/
theorem C2_isTokenExpired_iff (token : StoredToken) (now : Int) :
    (isTokenExpired now token = true ↔
       now ≥ token.created_at + token.expires_in * 1000 - 300000) ∧
    isTokenExpired (token.created_at + token.expires_in * 1000 - 300000) token = true := by
  constructor
  · simp only [isTokenExpired, decide_eq_true_eq]
    constructor <;> intro h <;> omega
  · simp only [isTokenExpired, decide_eq_true_eq]
    omega

/-- C3 counterexample: saving a record that already carries `created_at = 5` at
time 10 and loading yields `created_at = 10`, not the original record — the
round-trip does not preserve an existing `created_at`. -/
theorem C3_roundtrip_counterexample :
    loadToken (some (saveToken defaultTokenPath 10
        { access_token := "AT", refresh_token := "RT",
          expires_in := 3600, token_type := "Bearer" } (some 5)).2)
      = some { access_token := "AT", refresh_token := "RT", expires_in := 3600,
               token_type := "Bearer", created_at := 10 } ∧
    loadToken (some (saveToken defaultTokenPath 10
        { access_token := "AT", refresh_token := "RT",
          expires_in := 3600, token_type := "Bearer" } (some 5)).2)
      ≠ some { access_token := "AT", refresh_token := "RT", expires_in := 3600,
               token_type := "Bearer", created_at := 5 } := by
  constructor
  · rfl
  · decide

/-- C3 amended: saving then loading preserves every field except `created_at`,
which is always stamped with the save time, overwriting any `created_at` the
record already carried. -/
theorem C3_roundtrip_amended (path : String) (now : Int) (token : AuthToken)
    (existingCreatedAt : Option Int) :
    loadToken (some (saveToken path now token existingCreatedAt).2)
      = some { toAuthToken := token, created_at := now } := rfl

/-- C9 counterexample: `saveToken`'s filesystem trace on a concrete record is a
single direct `writeFile` to the final token path — no temporary file and no
rename. -/
theorem C9_atomic_save_counterexample :
    (saveToken defaultTokenPath 0
        { access_token := "AT", refresh_token := "RT",
          expires_in := 3600, token_type := "Bearer" } none).1
      = [FsOp.writeFile defaultTokenPath
          { access_token := "AT", refresh_token := "RT", expires_in := 3600,
            token_type := "Bearer", created_at := 0 }] ∧
    ((saveToken defaultTokenPath 0
        { access_token := "AT", refresh_token := "RT",
          expires_in := 3600, token_type := "Bearer" } none).1.any isRenameOp
      = false) ∧
    ((saveToken defaultTokenPath 0
        { access_token := "AT", refresh_token := "RT",
          expires_in := 3600, token_type := "Bearer" } none).1.any
        (writesDirectlyTo defaultTokenPath)
      = true) := by
  refine ⟨rfl, rfl, ?_⟩
  decide

/-- C9 amended: `saveToken` always performs exactly one direct `writeFile` to
the token path and never a rename, so no temporary-location-plus-rename atomic
replace is used. -/
theorem C9_save_is_direct_write (path : String) (now : Int) (token : AuthToken)
    (existingCreatedAt : Option Int) :
    (saveToken path now token existingCreatedAt).1
      = [FsOp.writeFile path { toAuthToken := token, created_at := now }] ∧
    (saveToken path now token existingCreatedAt).1.any isRenameOp = false :=
  ⟨rfl, rfl⟩

/-- C5: for every 32-byte (256-bit) random input, the generated PKCE pair
satisfies: the challenge is the base64url-no-padding encoding of the SHA-256
hash of the verifier, and the verifier is a 43-character string (within the
43–128 PKCE bound) over the URL-safe base64url alphabet. -/
theorem C5_generatePKCE_wellformed (randomBytes : List Nat)
    (hlen : randomBytes.length = 32) :
    (generatePKCE randomBytes).codeChallenge
      = base64urlEncode (sha256 ((generatePKCE randomBytes).codeVerifier.map Char.toNat)) ∧
    (generatePKCE randomBytes).codeVerifier.length = 43 ∧
    43 ≤ (generatePKCE randomBytes).codeVerifier.length ∧
    (generatePKCE randomBytes).codeVerifier.length ≤ 128 ∧
    (∀ c ∈ (generatePKCE randomBytes).codeVerifier, c ∈ b64urlAlphabet) ∧
    8 * randomBytes.length = 256 := by
  have hv : (generatePKCE randomBytes).codeVerifier = base64urlEncode randomBytes := rfl
  have hl : (generatePKCE randomBytes).codeVerifier.length = 43 := by
    rw [hv, base64urlEncode_length, hlen]
  refine ⟨rfl, hl, ?_, ?_, ?_, ?_⟩
  · omega
  · omega
  · intro c hc
    rw [hv] at hc
    exact mem_base64urlEncode randomBytes c hc
  · omega

/-- C5 witness: the PKCE pair generated from 32 zero bytes has a 43-character
verifier. -/
theorem C5_generatePKCE_witness :
    (List.replicate 32 (0 : Nat)).length = 32 ∧
    (generatePKCE (List.replicate 32 0)).codeVerifier.length = 43 :=
  ⟨by decide, (C5_generatePKCE_wellformed (List.replicate 32 0) (by decide)).2.1⟩

/-- C6: when a stored token exists and is not expired per the store-level
predicate, `authenticateWithBrowser` adopts it, sets the expiry to
`created_at + expires_in*1000`, sets the authorization header to
`Bearer <access_token>`, and performs no effect at all — no token-endpoint
request, no browser, no callback server. -/
theorem C6_stored_token_adopted (now : Int) (config : ViessmannConfig)
    (cs : ClientState) (st : StoredToken)
    (refreshHttp exchangeHttp : Except Unit AuthToken) (verifier : String)
    (callback : Except Unit String)
    (hvalid : isTokenExpired now st = false) :
    authenticateWithBrowser now config cs (some st) refreshHttp verifier callback exchangeHttp
      = ([], Except.ok
          { token := some st.toAuthToken
            tokenExpiry := some (st.created_at + st.expires_in * 1000)
            authHeader := some ("Bearer " ++ st.access_token) }) := by
  simp [authenticateWithBrowser, hvalid, updateAuthHeader]

/-- C6 witness: a fresh stored token at time 0 is adopted with expiry 3600000
and header `Bearer AT`, with an empty effect trace. -/
theorem C6_stored_token_witness :
    isTokenExpired 0 { access_token := "AT", refresh_token := "RT",
                       expires_in := 3600, token_type := "Bearer", created_at := 0 } = false ∧
    authenticateWithBrowser 0
        { clientId := "cid", clientSecret := none, username := none, password := none,
          accessToken := none, refreshToken := none, apiUrl := none }
        { token := none, tokenExpiry := none, authHeader := none }
        (some { access_token := "AT", refresh_token := "RT",
                expires_in := 3600, token_type := "Bearer", created_at := 0 })
        (Except.error ()) "v" (Except.error ()) (Except.error ())
      = ([], Except.ok
          { token := some { access_token := "AT", refresh_token := "RT",
                            expires_in := 3600, token_type := "Bearer" }
            tokenExpiry := some 3600000
            authHeader := some "Bearer AT" }) :=
  ⟨by decide,
   C6_stored_token_adopted 0
     { clientId := "cid", clientSecret := none, username := none, password := none,
       accessToken := none, refreshToken := none, apiUrl := none }
     { token := none, tokenExpiry := none, authHeader := none }
     { access_token := "AT", refresh_token := "RT",
       expires_in := 3600, token_type := "Bearer", created_at := 0 }
     (Except.error ()) (Except.error ()) "v" (Except.error ()) (by decide)⟩

/-- C7: a pre-supplied access token is adopted at construction with the expiry
set 365 days into the future; for any instant inside that nominal window the
in-memory expiry check reports not-expired and `ensureAuthenticated` performs
no token-grant request. -/
theorem C7_presupplied_access_token (t0 : Int) (config : ViessmannConfig)
    (hat : truthy config.accessToken = true) :
    (constructorState t0 config).token
      = some { access_token := config.accessToken.getD ""
               refresh_token := config.refreshToken.getD ""
               expires_in := 3600
               token_type := "Bearer" } ∧
    (constructorState t0 config).tokenExpiry = some (t0 + 365 * 24 * 60 * 60 * 1000) ∧
    (constructorState t0 config).authHeader
      = some ("Bearer " ++ config.accessToken.getD "") ∧
    ∀ (now : Int) (http : Except Unit AuthToken),
      now < t0 + 365 * 24 * 60 * 60 * 1000 - 300000 →
      clientIsTokenExpired now (constructorState t0 config) = false ∧
      ensureAuthenticated now config (constructorState t0 config) http
        = ([], Except.ok (constructorState t0 config)) := by
  have hc : constructorState t0 config
      = { token := some { access_token := config.accessToken.getD ""
                          refresh_token := config.refreshToken.getD ""
                          expires_in := 3600
                          token_type := "Bearer" }
          tokenExpiry := some (t0 + 365 * 24 * 60 * 60 * 1000)
          authHeader := some ("Bearer " ++ config.accessToken.getD "") } := by
    simp [constructorState, hat, updateAuthHeader]
  refine ⟨by rw [hc], by rw [hc], by rw [hc], ?_⟩
  intro now http hnow
  have hexp : clientIsTokenExpired now (constructorState t0 config) = false := by
    rw [hc]
    simp only [clientIsTokenExpired, decide_eq_false_iff_not, not_le, ge_iff_le]
    omega
  refine ⟨hexp, ?_⟩
  rw [hc] at hexp ⊢
  simp only [ensureAuthenticated, hexp, Bool.false_eq_true, if_false]

/-- C7 witness: constructing with access token `AT` at time 0, the expiry check
at time 0 is false and `ensureAuthenticated` is a no-op. -/
theorem C7_presupplied_witness :
    truthy (some "AT" : Option String) = true ∧
    clientIsTokenExpired 0
        (constructorState 0
          { clientId := "cid", clientSecret := none, username := none, password := none,
            accessToken := some "AT", refreshToken := none, apiUrl := none }) = false ∧
    ensureAuthenticated 0
        { clientId := "cid", clientSecret := none, username := none, password := none,
          accessToken := some "AT", refreshToken := none, apiUrl := none }
        (constructorState 0
          { clientId := "cid", clientSecret := none, username := none, password := none,
            accessToken := some "AT", refreshToken := none, apiUrl := none })
        (Except.error ())
      = ([], Except.ok (constructorState 0
          { clientId := "cid", clientSecret := none, username := none, password := none,
            accessToken := some "AT", refreshToken := none, apiUrl := none })) := by
  refine ⟨by decide, ?_, ?_⟩
  · exact ((C7_presupplied_access_token 0
      { clientId := "cid", clientSecret := none, username := none, password := none,
        accessToken := some "AT", refreshToken := none, apiUrl := none }
      (by decide)).2.2.2 0 (Except.error ()) (by decide)).1
  · exact ((C7_presupplied_access_token 0
      { clientId := "cid", clientSecret := none, username := none, password := none,
        accessToken := some "AT", refreshToken := none, apiUrl := none }
      (by decide)).2.2.2 0 (Except.error ()) (by decide)).2

/-- C8: `refreshToken` with a refresh token available fails with the
missing-client-secret error and performs no network request when no client
secret is configured; when it proceeds, the request body is exactly
`grant_type=refresh_token, refresh_token, client_id, client_secret`, and an
HTTP failure surfaces as the token-refresh-failed error. -/
theorem C8_refreshToken_contract (now : Int) (config : ViessmannConfig)
    (cs : ClientState) (t : AuthToken)
    (htok : cs.token = some t) (hrt : t.refresh_token ≠ "") :
    (truthy config.clientSecret = false →
       ∀ http, refreshToken now config cs http
         = ([], Except.error ClientError.missingClientSecret)) ∧
    (truthy config.clientSecret = true →
       (∀ http, (refreshToken now config cs http).1.head?
          = some (Effect.tokenRequest
              [("grant_type", "refresh_token"),
               ("refresh_token", t.refresh_token),
               ("client_id", config.clientId),
               ("client_secret", config.clientSecret.getD "")])) ∧
       refreshToken now config cs (Except.error ())
         = ([Effect.tokenRequest
              [("grant_type", "refresh_token"),
               ("refresh_token", t.refresh_token),
               ("client_id", config.clientId),
               ("client_secret", config.clientSecret.getD "")]],
            Except.error ClientError.tokenRefreshFailed)) := by
  constructor
  · intro hsec http
    simp [refreshToken, htok, hrt, hsec]
  · intro hsec
    constructor
    · intro http
      cases http <;> simp [refreshToken, htok, hrt, hsec]
    · simp [refreshToken, htok, hrt, hsec]

/-- C8 witness: concrete runs with and without a configured secret exhibit the
missing-client-secret failure without a request, and the exact request body
with the token-refresh-failed error on HTTP failure. -/
theorem C8_refreshToken_witness :
    ((({ token := some { access_token := "AT", refresh_token := "RT",
                         expires_in := 3600, token_type := "Bearer" }
         tokenExpiry := some 0, authHeader := none } : ClientState).token
       = some { access_token := "AT", refresh_token := "RT",
                expires_in := 3600, token_type := "Bearer" }) ∧
     ("RT" : String) ≠ "") ∧
    refreshToken 0
        { clientId := "cid", clientSecret := none, username := none, password := none,
          accessToken := none, refreshToken := none, apiUrl := none }
        { token := some { access_token := "AT", refresh_token := "RT",
                          expires_in := 3600, token_type := "Bearer" }
          tokenExpiry := some 0, authHeader := none }
        (Except.error ())
      = ([], Except.error ClientError.missingClientSecret) ∧
    refreshToken 0
        { clientId := "cid", clientSecret := some "sec", username := none, password := none,
          accessToken := none, refreshToken := none, apiUrl := none }
        { token := some { access_token := "AT", refresh_token := "RT",
                          expires_in := 3600, token_type := "Bearer" }
          tokenExpiry := some 0, authHeader := none }
        (Except.error ())
      = ([Effect.tokenRequest
           [("grant_type", "refresh_token"), ("refresh_token", "RT"),
            ("client_id", "cid"), ("client_secret", "sec")]],
         Except.error ClientError.tokenRefreshFailed) := by
  refine ⟨⟨rfl, by decide⟩, ?_, ?_⟩
  · exact (C8_refreshToken_contract 0
      { clientId := "cid", clientSecret := none, username := none, password := none,
        accessToken := none, refreshToken := none, apiUrl := none }
      { token := some { access_token := "AT", refresh_token := "RT",
                        expires_in := 3600, token_type := "Bearer" }
        tokenExpiry := some 0, authHeader := none }
      { access_token := "AT", refresh_token := "RT",
        expires_in := 3600, token_type := "Bearer" }
      rfl (by decide)).1 (by decide) (Except.error ())
  · exact ((C8_refreshToken_contract 0
      { clientId := "cid", clientSecret := some "sec", username := none, password := none,
        accessToken := none, refreshToken := none, apiUrl := none }
      { token := some { access_token := "AT", refresh_token := "RT",
                        expires_in := 3600, token_type := "Bearer" }
        tokenExpiry := some 0, authHeader := none }
      { access_token := "AT", refresh_token := "RT",
        expires_in := 3600, token_type := "Bearer" }
      rfl (by decide)).2 (by decide)).2

/-- Helper for C4: `refreshToken` never deletes the stored token. -/
theorem deleteStoredToken_not_mem_refreshToken (now : Int) (config : ViessmannConfig)
    (cs : ClientState) (http : Except Unit AuthToken) :
    Effect.deleteStoredToken ∉ (refreshToken now config cs http).1 := by
  cases h : cs.token with
  | none => simp [refreshToken, h]
  | some t =>
    simp only [refreshToken, h]
    repeat' split
    all_goals simp

/-- C4 counterexample: a concrete `ensureAuthenticated` run on an expired token
whose refresh grant fails surfaces the hard `tokenRefreshFailed` error to the
caller: the stored token is not deleted and no interactive fallback (callback
server, browser) happens — contradicting the claim for that entry point. -/
theorem C4_ensureAuthenticated_counterexample :
    ensureAuthenticated 4000000
        { clientId := "cid", clientSecret := some "sec", username := none, password := none,
          accessToken := none, refreshToken := none, apiUrl := none }
        { token := some { access_token := "AT", refresh_token := "RT",
                          expires_in := 3600, token_type := "Bearer" }
          tokenExpiry := some 3600000, authHeader := some "Bearer AT" }
        (Except.error ())
      = ([Effect.tokenRequest
           [("grant_type", "refresh_token"), ("refresh_token", "RT"),
            ("client_id", "cid"), ("client_secret", "sec")]],
         Except.error ClientError.tokenRefreshFailed) ∧
    Effect.deleteStoredToken ∉
      (ensureAuthenticated 4000000
        { clientId := "cid", clientSecret := some "sec", username := none, password := none,
          accessToken := none, refreshToken := none, apiUrl := none }
        { token := some { access_token := "AT", refresh_token := "RT",
                          expires_in := 3600, token_type := "Bearer" }
          tokenExpiry := some 3600000, authHeader := some "Bearer AT" }
        (Except.error ())).1 ∧
    Effect.startCallbackServer 4200 ∉
      (ensureAuthenticated 4000000
        { clientId := "cid", clientSecret := some "sec", username := none, password := none,
          accessToken := none, refreshToken := none, apiUrl := none }
        { token := some { access_token := "AT", refresh_token := "RT",
                          expires_in := 3600, token_type := "Bearer" }
          tokenExpiry := some 3600000, authHeader := some "Bearer AT" }
        (Except.error ())).1 ∧
    Effect.openBrowser ∉
      (ensureAuthenticated 4000000
        { clientId := "cid", clientSecret := some "sec", username := none, password := none,
          accessToken := none, refreshToken := none, apiUrl := none }
        { token := some { access_token := "AT", refresh_token := "RT",
                          expires_in := 3600, token_type := "Bearer" }
          tokenExpiry := some 3600000, authHeader := some "Bearer AT" }
        (Except.error ())).1 := by
  refine ⟨by rfl, by decide, by decide, by decide⟩

/-- C4 amended: only `authenticateWithBrowser` reacts to a failed refresh by
deleting the stale stored token and falling back to the full interactive flow
(its result is the interactive flow's result); the per-request
`ensureAuthenticated` path runs `refreshToken` unguarded, so a refresh failure
surfaces to the caller and the stored token is never deleted there. -/
theorem C4_refresh_failure_paths :
    (∀ (now : Int) (config : ViessmannConfig) (cs : ClientState) (st : StoredToken)
       (refreshHttp : Except Unit AuthToken) (verifier : String)
       (callback : Except Unit String) (exchangeHttp : Except Unit AuthToken)
       (e : ClientError),
       isTokenExpired now st = true →
       st.refresh_token ≠ "" →
       (refreshToken now config { cs with token := some st.toAuthToken } refreshHttp).2
         = Except.error e →
       Effect.deleteStoredToken ∈
           (authenticateWithBrowser now config cs (some st) refreshHttp verifier
             callback exchangeHttp).1 ∧
       Effect.startCallbackServer 4200 ∈
           (authenticateWithBrowser now config cs (some st) refreshHttp verifier
             callback exchangeHttp).1 ∧
       (authenticateWithBrowser now config cs (some st) refreshHttp verifier
           callback exchangeHttp).2
         = (interactiveFlow now config { cs with token := some st.toAuthToken } verifier
             callback exchangeHttp).2) ∧
    (∀ (now : Int) (config : ViessmannConfig) (cs : ClientState)
       (http : Except Unit AuthToken) (t : AuthToken),
       cs.token = some t →
       clientIsTokenExpired now cs = true →
       ensureAuthenticated now config cs http = refreshToken now config cs http ∧
       Effect.deleteStoredToken ∉ (ensureAuthenticated now config cs http).1) := by
  constructor
  · intro now config cs st refreshHttp verifier callback exchangeHttp e hexp hrt herr
    have hmain : authenticateWithBrowser now config cs (some st) refreshHttp verifier
        callback exchangeHttp
      = ((refreshToken now config { cs with token := some st.toAuthToken } refreshHttp).1
            ++ [Effect.deleteStoredToken]
            ++ (interactiveFlow now config { cs with token := some st.toAuthToken } verifier
                  callback exchangeHttp).1,
         (interactiveFlow now config { cs with token := some st.toAuthToken } verifier
            callback exchangeHttp).2) := by
      simp [authenticateWithBrowser, hexp, hrt, herr]
    rw [hmain]
    refine ⟨?_, ?_, rfl⟩
    · simp
    · have : Effect.startCallbackServer 4200 ∈
          (interactiveFlow now config { cs with token := some st.toAuthToken } verifier
            callback exchangeHttp).1 := by
        simp only [interactiveFlow]
        repeat' split
        all_goals simp
      simp [this]
  · intro now config cs http t htok hexp
    have hmain : ensureAuthenticated now config cs http = refreshToken now config cs http := by
      simp [ensureAuthenticated, htok, hexp]
    rw [hmain]
    exact ⟨rfl, deleteStoredToken_not_mem_refreshToken now config cs http⟩

/-- C4 witness: a concrete `authenticateWithBrowser` run with an expired stored
token and a failing refresh deletes the stored token. -/
theorem C4_refresh_failure_witness :
    isTokenExpired 4000000
        { access_token := "AT", refresh_token := "RT",
          expires_in := 3600, token_type := "Bearer", created_at := 0 } = true ∧
    Effect.deleteStoredToken ∈
      (authenticateWithBrowser 4000000
        { clientId := "cid", clientSecret := some "sec", username := none, password := none,
          accessToken := none, refreshToken := none, apiUrl := none }
        { token := none, tokenExpiry := none, authHeader := none }
        (some { access_token := "AT", refresh_token := "RT",
                expires_in := 3600, token_type := "Bearer", created_at := 0 })
        (Except.error ()) "v" (Except.error ()) (Except.error ())).1 :=
  ⟨by decide,
   (C4_refresh_failure_paths.1 4000000
     { clientId := "cid", clientSecret := some "sec", username := none, password := none,
       accessToken := none, refreshToken := none, apiUrl := none }
     { token := none, tokenExpiry := none, authHeader := none }
     { access_token := "AT", refresh_token := "RT",
       expires_in := 3600, token_type := "Bearer", created_at := 0 }
     (Except.error ()) "v" (Except.error ()) (Except.error ())
     ClientError.tokenRefreshFailed (by decide) (by decide) (by rfl)).1⟩
